import Mathlib

/-!
Shallow embedding of `omgeo/services/__init__.py`: the provider adapters
Bing, USCensus, MapQuest and Nominatim.  JSON values delivered by a
provider are modelled by `PyVal`; dictionary/list access that would raise
in Python (KeyError, IndexError, TypeError) is modelled by `Except`.
HTTP transport is external: each `_geocode` takes the decoded response
object as an argument next to the query it would have sent.
-/

/-- A Python/JSON value as the adapters see it: strings, numbers
(modelled as rationals), lists, string-keyed dicts, and None. -/
inductive PyVal where
  | str (s : String)
  | num (q : Rat)
  | list (xs : List PyVal)
  | dict (kvs : List (String × PyVal))
  | none
deriving Repr

/-- Python truthiness for the values of `PyVal`. -/
def pyTruthy : PyVal → Bool
  | PyVal.str s => s ≠ ""
  | PyVal.num q => q ≠ 0
  | PyVal.list xs => ¬ xs.isEmpty
  | PyVal.dict kvs => ¬ kvs.isEmpty
  | PyVal.none => false

/-- First binding for a key in an association list (Python dicts cannot
hold a key twice, so the lists we build never do either). -/
def alistLookup (kvs : List (String × PyVal)) (k : String) : Option PyVal :=
  match kvs with
  | [] => Option.none
  | (k0, v) :: rest => if k0 = k then some v else alistLookup rest k

/-- `d[k]` on a `PyVal`: KeyError when the key is absent, TypeError when
the value is not a dict (lists are indexed by `jIndex` instead). -/
def jLookup (v : PyVal) (k : String) : Except String PyVal :=
  match v with
  | PyVal.dict kvs =>
      match alistLookup kvs k with
      | some w => Except.ok w
      | Option.none => Except.error ("KeyError: " ++ k)
  | _ => Except.error ("TypeError: value has no key " ++ k)

/-- `d[i]` on a `PyVal` list: IndexError past the end, TypeError on
anything that is not a list. -/
def jIndex (v : PyVal) (i : Nat) : Except String PyVal :=
  match v with
  | PyVal.list xs =>
      match xs.get? i with
      | some w => Except.ok w
      | Option.none => Except.error "IndexError: list index out of range"
  | _ => Except.error "TypeError: value is not indexable"

/-- `d.get(k, default)` on a `PyVal`: AttributeError on a non-dict. -/
def jGetD (v : PyVal) (k : String) (d : PyVal) : Except String PyVal :=
  match v with
  | PyVal.dict kvs => Except.ok ((alistLookup kvs k).getD d)
  | _ => Except.error "AttributeError: value has no method get"

/-- Membership test `k in d`; false on non-dicts. -/
def jHasKey (v : PyVal) (k : String) : Bool :=
  match v with
  | PyVal.dict kvs => (alistLookup kvs k).isSome
  | _ => false

/-- Iterating a provider response row list; TypeError on non-lists
(the adapters only ever iterate JSON arrays). -/
def asList (v : PyVal) : Except String (List PyVal) :=
  match v with
  | PyVal.list xs => Except.ok xs
  | _ => Except.error "TypeError: value is not a list"

/-- A value used where Python requires `str` (string join); TypeError
otherwise. -/
def asStr (v : PyVal) : Except String String :=
  match v with
  | PyVal.str s => Except.ok s
  | _ => Except.error "TypeError: expected a string"

/-- Python `str()` as the adapters use it in `%s` formatting.  The
string and None cases are exact; numeric and container renderings only
approximate CPython (no claim depends on them: the Nominatim `class` and
`type` fields are strings). -/
def pyToStr : PyVal → String
  | PyVal.str s => s
  | PyVal.num q => toString q
  | PyVal.none => "None"
  | PyVal.list _ => "[...]"
  | PyVal.dict _ => "{...}"

/-- Python `str.isspace` characters in the ASCII range (space and the
control characters 9-13); the geocoder queries are ASCII. -/
def isPySpace (c : Char) : Bool :=
  c.toNat = 32 ∨ (9 ≤ c.toNat ∧ c.toNat ≤ 13)

/-- Python `s.strip()`: whitespace removed from both ends. -/
def pyStrip (s : String) : String :=
  String.mk (((s.data.dropWhile isPySpace).reverse.dropWhile isPySpace).reverse)

/-- The maximal leading digit run of a string: what
`re.match(r'([0-9]+)', s).group(0)` yields, or `""` when `s` does not
start with a decimal digit (`re.match` anchors at the start). -/
def leadingDigits (s : String) : String :=
  String.mk (s.data.takeWhile Char.isDigit)

/-- `sep.join(parts)` for non-empty and empty part lists alike. -/
def joinWith (sep : String) : List String → String
  | [] => ""
  | [a] => a
  | a :: b :: rest => a ++ sep ++ joinWith sep (b :: rest)

/-- Digits of a decimal numeral to a natural number. -/
def digitsToNat (s : String) : Nat :=
  s.foldl (fun n c => n * 10 + (c.toNat - 48)) 0

/-- Plain decimal literals accepted by Python `float()` (sign, integer
part, optional fraction); the exotic forms (exponents, inf/nan,
whitespace) are not produced by the geocoders and are rejected here. -/
def parseDecimal (s : String) : Option Rat :=
  let sg : Rat := if s.startsWith "-" then -1 else 1
  let r1 := if s.startsWith "-" ∨ s.startsWith "+" then s.drop 1 else s
  let ip := r1.takeWhile Char.isDigit
  let r2 := r1.drop ip.length
  if r2 = "" then
    if ip = "" then Option.none else some (sg * digitsToNat ip)
  else if r2.startsWith "." then
    let fp := (r2.drop 1).takeWhile Char.isDigit
    let r3 := (r2.drop 1).drop fp.length
    if r3 ≠ "" then Option.none
    else if ip = "" ∧ fp = "" then Option.none
    else some (sg * ((digitsToNat ip : Rat) + (digitsToNat fp : Rat) / ((10 : Rat) ^ fp.length)))
  else Option.none

/-- Python `float(v)`: numbers pass through, decimal strings are parsed
(ValueError on failure), other types raise TypeError. -/
def pyFloat (v : PyVal) : Except String Rat :=
  match v with
  | PyVal.num q => Except.ok q
  | PyVal.str s =>
      match parseDecimal s with
      | some q => Except.ok q
      | Option.none => Except.error "ValueError: could not convert string to float"
  | _ => Except.error "TypeError: float() argument"

/-- Modelled from the spec: `omgeo.places.Candidate` (omgeo/places.py is
not under src/).  A normalized geocode result record with named
attributes; per the spec, coordinates default to spatial reference WKID
4326, and the remaining attributes are modelled as unset (`Option.none`)
until a provider adapter assigns them. -/
structure Candidate where
  match_addr : Option PyVal := Option.none
  x : Option PyVal := Option.none
  y : Option PyVal := Option.none
  wkid : PyVal := PyVal.num 4326
  locator : Option PyVal := Option.none
  entity : Option PyVal := Option.none
  confidence : Option PyVal := Option.none
  score : Option PyVal := Option.none
  address : Option PyVal := Option.none
  geoservice : Option PyVal := Option.none
  match_city : Option PyVal := Option.none
  match_region : Option PyVal := Option.none
  match_postal : Option PyVal := Option.none
  match_subregion : Option PyVal := Option.none
  match_country : Option PyVal := Option.none
  match_streetaddr : Option PyVal := Option.none
deriving Repr

/-- Modelled from the spec: `omgeo.places.PlaceQuery` (omgeo/places.py is
not under src/).  The address search request: a free-form `query` string,
structured fields, and the optional constraints the adapters probe with
`hasattr`.  Provider-specific serializations produced outside src/
(`viewbox.to_bing_str()`, `viewbox.to_mapquest_str()`, the `%f,%f`
rendering of `user_lat`/`user_lon`, the `bounded` flag) are carried as
already-serialized strings. -/
structure Query where
  query : String := ""
  address : String := ""
  city : String := ""
  state : String := ""
  postal : String := ""
  country : String := ""
  subregion : String := ""
  viewbox_bing : Option String := Option.none
  viewbox_mapquest : Option String := Option.none
  culture : Option String := Option.none
  user_ip : Option String := Option.none
  user_ul : Option String := Option.none
  bounded : String := ""
deriving Repr

/-- `dict(d, **{k: v})`: existing keys are updated in place, new keys are
appended, insertion order kept (CPython 3.7+ dict semantics). -/
def dictSet (d : List (String × String)) (k v : String) : List (String × String) :=
  if d.any (fun kv => kv.1 = k) then
    d.map (fun kv => if kv.1 = k then (k, v) else kv)
  else d ++ [(k, v)]

/-! ## Postprocessor stage configurations

Only the configuration data of the declared default chains is needed
here (claims C3 and C6 are about which stages appear and in what order);
the stages' run semantics live in `omgeo/postprocessors.py`, outside
src/. -/

/-- One postprocessor stage as configured in a default chain. -/
inductive PostStage where
  | attrMigrator (srcAttr dstAttr : String) (mapping : List (String × Nat))
  | useHighScoreIfAtLeast (threshold : Nat)
  | attrFilter (vals : List String) (attr : String) (exactMatch : Bool)
  | attrExclude (vals : List String) (attr : String)
  | attrRename (attr : String) (mapping : List (String × String))
  | attrSorter (vals : List String) (attr : String)
  | scoreSorter
  | groupBy (keys : List String)
deriving Repr, DecidableEq

/-- The operator family of a stage. -/
inductive StageKind where
  | filter
  | exclude
  | rename
  | migrate
  | sort
  | group
  | control
deriving Repr, DecidableEq

/-- Which family each configured stage belongs to. -/
def stageKind : PostStage → StageKind
  | PostStage.attrMigrator _ _ _ => StageKind.migrate
  | PostStage.useHighScoreIfAtLeast _ => StageKind.control
  | PostStage.attrFilter _ _ _ => StageKind.filter
  | PostStage.attrExclude _ _ => StageKind.exclude
  | PostStage.attrRename _ _ => StageKind.rename
  | PostStage.attrSorter _ _ => StageKind.sort
  | PostStage.scoreSorter => StageKind.sort
  | PostStage.groupBy _ => StageKind.group

/-- Rank of the four ordered operator families of the spec's ordering
rule (filters/excludes, then renamers/migrators, then sorters, then
group-dedup); the `UseHighScoreIfAtLeast` control stage is outside the
rule. -/
def categoryRank : StageKind → Option Nat
  | StageKind.filter => some 0
  | StageKind.exclude => some 0
  | StageKind.rename => some 1
  | StageKind.migrate => some 1
  | StageKind.sort => some 2
  | StageKind.group => some 3
  | StageKind.control => Option.none

/-- A list of ranks is non-decreasing. -/
def ranksSorted : List Nat → Bool
  | [] => true
  | [_] => true
  | a :: b :: rest => a ≤ b && ranksSorted (b :: rest)

/-- The chain's ranked stages appear in the order the spec's rule
demands. -/
def chainFollowsOrder (l : List PostStage) : Bool :=
  ranksSorted (l.filterMap (fun s => categoryRank (stageKind s)))

namespace Bing

/-- `Bing.DEFAULT_POSTPROCESSORS` as first bound at lines 35-69 of
`omgeo/services/__init__.py`, before line 70 rebinds the name. -/
def DEFAULT_POSTPROCESSORS_declared : List PostStage := [
  PostStage.attrMigrator "confidence" "score"
    [("High", 100), ("Medium", 85), ("Low", 50)],
  PostStage.useHighScoreIfAtLeast 100,
  PostStage.attrFilter ["Address", "AdministrativeBuilding",
                        "AgriculturalStructure",
                        "BusinessName", "BusinessStructure",
                        "BusStation", "Camp", "Church", "CityHall",
                        "CommunityCenter", "ConventionCenter",
                        "Courthouse", "Factory", "FerryTerminal",
                        "FishHatchery", "Fort", "Garden", "Geyser",
                        "Heliport", "IndustrialStructure",
                        "InformationCenter", "Junction",
                        "LandmarkBuilding", "Library", "Lighthouse",
                        "Marina", "MedicalStructure", "MetroStation",
                        "Mine", "Mission", "Monument", "Mosque",
                        "Museum", "NauticalStructure", "NavigationalStructure",
                        "OfficeBuilding", "ParkAndRide", "PlayingField",
                        "PoliceStation", "PostOffice", "PowerStation",
                        "Prison", "RaceTrack", "ReligiousStructure",
                        "RestArea", "Ruin", "ShoppingCenter", "Site",
                        "SkiArea", "Spring", "Stadium", "Temple",
                        "TouristStructure"] "entity" true,
  PostStage.attrRename "locator" [("Rooftop", "rooftop"),
                                  ("Parcel", "parcel"),
                                  ("ParcelCentroid", "parcel"),
                                  ("Interpolation", "interpolation"),
                                  ("InterpolationOffset", "interpolation_offset")],
  PostStage.attrSorter ["rooftop", "parcel",
                        "interpolation_offset", "interpolation"] "locator",
  PostStage.attrSorter ["Address"] "entity",
  PostStage.scoreSorter,
  PostStage.groupBy ["x", "y"],
  PostStage.groupBy ["match_addr"]]

/-- Line 70 immediately rebinds `Bing.DEFAULT_POSTPROCESSORS` to the
empty list: this is the binding in effect when the class body finishes. -/
def DEFAULT_POSTPROCESSORS : List PostStage := []

/-- `Bing.__init__`: the postprocessor chain an instance ends up with
when the caller passes `postprocessors=None` (modelled as `Option.none`)
or an explicit list. -/
def effectivePostprocessors (postprocessors : Option (List PostStage)) : List PostStage :=
  match postprocessors with
  | Option.none => DEFAULT_POSTPROCESSORS
  | some ps => ps

/-- Lines 78-86: the base query dict, built from the free-form string
when `pq.query.strip()` is non-empty and from the structured address
elements otherwise. -/
def baseQuery (pq : Query) : List (String × String) :=
  if pyStrip pq.query = "" then
    [("addressLine", pq.address),
     ("locality", pq.city),
     ("adminDistrict", pq.state),
     ("postalCode", pq.postal),
     ("countryRegion", pq.country)]
  else
    [("query", pq.query)]

/-- Lines 77-98: the full request dict, the base query extended with the
optional viewbox/culture/user fields and the API key. -/
def buildQuery (api_key : String) (pq : Query) : List (String × String) :=
  let q0 := baseQuery pq
  let q1 := match pq.viewbox_bing with
            | some vb => dictSet q0 "umv" vb
            | Option.none => q0
  let q2 := match pq.culture with
            | some c => dictSet q1 "c" c
            | Option.none => q1
  let q3 := match pq.user_ip with
            | some u => dictSet q2 "uip" u
            | Option.none => q2
  let q4 := match pq.user_ul with
            | some ul => dictSet q3 "ul" ul
            | Option.none => q3
  dictSet q4 "key" api_key

/-- Lines 101-112: one raw Bing resource row to a `Candidate`. -/
def candidateOfRow (r : PyVal) : Except String Candidate := do
  let entity ← jLookup r "entityType"
  let gps ← jLookup r "geocodePoints"
  let gp0 ← jIndex gps 0
  let locator ← jLookup gp0 "calculationMethod"
  let confidence ← jLookup r "confidence"
  let name ← jLookup r "name"
  let coords ← jLookup gp0 "coordinates"
  let x ← jIndex coords 1
  let y ← jIndex coords 0
  let address ← jLookup r "address"
  Except.ok { entity := some entity,
              locator := some locator,
              confidence := some confidence,
              match_addr := some name,
              x := some x,
              y := some y,
              wkid := PyVal.num 4326,
              address := some address,
              geoservice := some (PyVal.str "Bing") }

/-- Lines 100-113: the candidate list built from the decoded response. -/
def candidatesOfResponse (response_obj : PyVal) : Except String (List Candidate) := do
  let rsets ← jLookup response_obj "resourceSets"
  let rs0 ← jIndex rsets 0
  let resources ← jLookup rs0 "resources"
  let rows ← asList resources
  rows.mapM candidateOfRow

/-- `Bing._geocode` (lines 77-113): the request it sends and, given the
decoded response, the candidate list it returns. -/
def _geocode (api_key : String) (pq : Query) (response_obj : PyVal) :
    Except String (List (String × String) × List Candidate) := do
  let cands ← candidatesOfResponse response_obj
  Except.ok (buildQuery api_key pq, cands)

end Bing

namespace USCensus

/-- Line 120. -/
def _endpoint_base : String := "http://geocoding.geo.census.gov/geocoder/locations/"

/-- Lines 123-136: the endpoint chosen and the request dict.  `if
pq.query:` is Python truthiness of a string, i.e. non-emptiness. -/
def buildRequest (pq : Query) : String × List (String × String) :=
  let query := [("format", "json"), ("benchmark", "Public_AR_Current")]
  if pq.query ≠ "" then
    (_endpoint_base ++ "onelineaddress", dictSet query "address" pq.query)
  else
    (_endpoint_base ++ "address",
     dictSet (dictSet (dictSet (dictSet query "street" pq.address)
       "city" pq.city) "state" pq.state) "zip" pq.postal)

/-- The ordered street-address component fields of lines 167-168. -/
def ordered_fields : List String :=
  ["preQualifier", "preDirection", "preType", "streetName",
   "suffixType", "suffixDirection", "suffixQualifier"]

/-- Lines 159-184, `USCensus._street_addr_from_response`: the street
address reconstructed from a match row.  `re.match(r'([0-9]+)', s)`
succeeds exactly when `s` starts with a digit, and `group(0)` is then
the maximal leading digit run. -/
def _street_addr_from_response (matchObj : PyVal) : Except String PyVal := do
  let ma ← jLookup matchObj "matchedAddress"
  let maStr ← asStr ma
  let num := leadingDigits maStr
  if num = "" then
    Except.ok (PyVal.str "")
  else do
    let comps ← jLookup matchObj "addressComponents"
    let fields ← ordered_fields.mapM (fun f => jGetD comps f (PyVal.str ""))
    let result := PyVal.str num :: fields
    if result.any pyTruthy then do
      let kept ← (result.filter pyTruthy).mapM asStr
      Except.ok (PyVal.str (joinWith " " kept))
    else
      Except.ok (PyVal.str "")

/-- Lines 144-156: one Census address match row to a `Candidate`.  The
adapter never assigns `wkid`, so the candidate keeps the constructor's
default. -/
def candidateOfRow (r : PyVal) : Except String Candidate := do
  let matchedAddress ← jLookup r "matchedAddress"
  let coords ← jLookup r "coordinates"
  let x ← jLookup coords "x"
  let y ← jLookup coords "y"
  let comps ← jLookup r "addressComponents"
  let city ← jGetD comps "city" (PyVal.str "")
  let state ← jGetD comps "state" (PyVal.str "")
  let zip ← jGetD comps "zip" (PyVal.str "")
  let streetaddr ← _street_addr_from_response r
  Except.ok { match_addr := some matchedAddress,
              x := some x,
              y := some y,
              geoservice := some (PyVal.str "USCensus"),
              match_city := some city,
              match_region := some state,
              match_postal := some zip,
              match_subregion := some (PyVal.str ""),
              match_country := some (PyVal.str "USA"),
              match_streetaddr := some streetaddr }

/-- Lines 142-157: the candidate list built from the decoded response. -/
def candidatesOfResponse (response_obj : PyVal) : Except String (List Candidate) := do
  let result ← jLookup response_obj "result"
  let addressMatches ← jLookup result "addressMatches"
  let rows ← asList addressMatches
  rows.mapM candidateOfRow

/-- `USCensus._geocode` (lines 122-157): the request it sends and, given
the decoded response, the candidate list it returns. -/
def _geocode (pq : Query) (response_obj : PyVal) :
    Except String ((String × List (String × String)) × List Candidate) := do
  let cands ← candidatesOfResponse response_obj
  Except.ok (buildRequest pq, cands)

end USCensus

namespace MapQuest

/-- Lines 194-199, `get_appended_location`: add each key/value pair to
the location dict only when the value is not the empty string, in the
order the keyword arguments are written. -/
def get_appended_location (location : List (String × String))
    (kwargs : List (String × String)) : List (String × String) :=
  kwargs.foldl (fun loc kv => if kv.2 ≠ "" then dictSet loc kv.1 kv.2 else loc) location

/-- Lines 200-205: the `location` member of the request json.  The
free-form query is tried as the `street` member first, the structured
`address` only when that left the dict empty; the remaining structured
fields are appended unconditionally (when non-empty). -/
def location (pq : Query) : List (String × String) :=
  let l0 := get_appended_location [] [("street", pq.query)]
  let l1 := if l0 = [] then get_appended_location l0 [("street", pq.address)] else l0
  get_appended_location l1 [("city", pq.city), ("county", pq.subregion),
                            ("state", pq.state), ("postalCode", pq.postal),
                            ("country", pq.country)]

/-- The match address elements of lines 220-221. -/
def match_addr_elements : List String :=
  ["street", "adminArea5", "adminArea3", "adminArea2", "postalCode"]

/-- Lines 217-227: one MapQuest location row to a `Candidate`.  The
match address elements are optional: absent keys are skipped by the
`if k in r` comprehension filter, and the present values are joined. -/
def candidateOfRow (className : String) (r : PyVal) : Except String Candidate := do
  let locator ← jLookup r "geocodeQuality"
  let confidence ← jLookup r "geocodeQualityCode"
  let presentVals ← (match_addr_elements.filter (fun k => jHasKey r k)).mapM
    (fun k => do
      let v ← jLookup r k
      asStr v)
  let latLng ← jLookup r "latLng"
  let x ← jLookup latLng "lng"
  let y ← jLookup latLng "lat"
  Except.ok { locator := some locator,
              confidence := some confidence,
              match_addr := some (PyVal.str (joinWith ", " presentVals)),
              x := some x,
              y := some y,
              wkid := PyVal.num 4326,
              geoservice := some (PyVal.str className) }

/-- Lines 215-228: the candidate list built from the decoded response.
`className` is `self.__class__.__name__`: "MapQuest" for the base class,
"MapQuestSSL"/"MapQuestOpen" for the subclasses of lines 231-235, which
inherit `_geocode` unchanged. -/
def candidatesOfResponse (className : String) (response_obj : PyVal) :
    Except String (List Candidate) := do
  let results ← jLookup response_obj "results"
  let r0 ← jIndex results 0
  let locations ← jLookup r0 "locations"
  let rows ← asList locations
  rows.mapM (candidateOfRow className)

/-- `MapQuest._geocode` (lines 193-228): the `location` request member
it builds and, given the decoded response, the candidate list it
returns.  The json serialization and the urllib key unquoting of lines
206-210 are external string plumbing and are not modelled. -/
def _geocode (className : String) (pq : Query) (response_obj : PyVal) :
    Except String (List (String × String) × List Candidate) := do
  let cands ← candidatesOfResponse className response_obj
  Except.ok (location pq, cands)

end MapQuest

namespace Nominatim

/-- Line 242. -/
def _wkid : Rat := 4326

/-- Lines 273-278: the request dict. -/
def buildQuery (pq : Query) : List (String × String) :=
  let q0 := [("q", pq.query), ("countrycodes", pq.country), ("format", "json")]
  match pq.viewbox_mapquest with
  | some vb => dictSet (dictSet q0 "viewbox" vb) "bounded" pq.bounded
  | Option.none => q0

/-- Lines 284-292: one Nominatim result row to a `Candidate`.  `lon` and
`lat` go through `float()` (cast added in 1.3.4), so string coordinates
are parsed to numbers. -/
def candidateOfRow (r : PyVal) : Except String Candidate := do
  let cls ← jLookup r "class"
  let typ ← jLookup r "type"
  let display_name ← jLookup r "display_name"
  let lon ← jLookup r "lon"
  let x ← pyFloat lon
  let lat ← jLookup r "lat"
  let y ← pyFloat lat
  Except.ok { locator := some (PyVal.str "parcel"),
              entity := some (PyVal.str (pyToStr cls ++ "." ++ pyToStr typ)),
              match_addr := some display_name,
              x := some (PyVal.num x),
              y := some (PyVal.num y),
              wkid := PyVal.num _wkid,
              geoservice := some (PyVal.str "Nominatim") }

/-- Lines 282-293: the response object is itself the row list. -/
def candidatesOfResponse (response_obj : PyVal) : Except String (List Candidate) := do
  let rows ← asList response_obj
  rows.mapM candidateOfRow

/-- `Nominatim._geocode` (lines 272-293). -/
def _geocode (pq : Query) (response_obj : PyVal) :
    Except String (List (String × String) × List Candidate) := do
  let cands ← candidatesOfResponse response_obj
  Except.ok (buildQuery pq, cands)

end Nominatim

namespace Nominatim

/-- Lines 245-251. -/
def DEFAULT_ACCEPTED_ENTITIES : List String :=
  ["building.", "historic.castle", "leisure.ice_rink",
   "leisure.miniature_golf",
   "leisure.sports_centre", "lesiure.stadium", "leisure.track",
   "lesiure.water_park", "man_made.lighthouse", "man_made.works",
   "military.barracks", "military.bunker", "office.", "place.house",
   "amenity.", "power.generator", "railway.station",
   "shop.", "tourism."]

/-- Lines 253-256. -/
def DEFAULT_REJECTED_ENTITIES : List String :=
  ["amenity.drinking_water",
   "amentity.bicycle_parking", "amentity.ev_charging",
   "amentity.grit_bin", "amentity.atm",
   "amentity.hunting_stand", "amentity.post_box"]

/-- Lines 261-264: Nominatim's declared default postprocessor chain. -/
def DEFAULT_POSTPROCESSORS : List PostStage :=
  [PostStage.attrFilter DEFAULT_ACCEPTED_ENTITIES "entity" false,
   PostStage.attrExclude DEFAULT_REJECTED_ENTITIES "entity"]

end Nominatim

/-- A well-formed Bing resource row with numeric coordinates. -/
def exBingRow : PyVal := PyVal.dict [
  ("entityType", PyVal.str "Address"),
  ("geocodePoints", PyVal.list [PyVal.dict [
    ("calculationMethod", PyVal.str "Rooftop"),
    ("coordinates", PyVal.list [PyVal.num 47, PyVal.num (-122)])]]),
  ("confidence", PyVal.str "High"),
  ("name", PyVal.str "1 Microsoft Way"),
  ("address", PyVal.dict [])]

/-- A Bing response holding exactly `exBingRow`. -/
def exBingResp : PyVal := PyVal.dict [
  ("resourceSets", PyVal.list [PyVal.dict [("resources", PyVal.list [exBingRow])]])]

/-- The candidate `Bing._geocode` builds from `exBingRow`. -/
def exBingCand : Candidate :=
  { entity := some (PyVal.str "Address"),
    locator := some (PyVal.str "Rooftop"),
    confidence := some (PyVal.str "High"),
    match_addr := some (PyVal.str "1 Microsoft Way"),
    x := some (PyVal.num (-122)),
    y := some (PyVal.num 47),
    wkid := PyVal.num 4326,
    address := some (PyVal.dict []),
    geoservice := some (PyVal.str "Bing") }

/-- A well-formed Census address match row. -/
def exCensusRow : PyVal := PyVal.dict [
  ("matchedAddress", PyVal.str "123 Main St, Philadelphia, PA, 19107"),
  ("coordinates", PyVal.dict [("x", PyVal.num (-75)), ("y", PyVal.num 40)]),
  ("addressComponents", PyVal.dict [
    ("city", PyVal.str "Philadelphia"),
    ("state", PyVal.str "PA"),
    ("zip", PyVal.str "19107"),
    ("streetName", PyVal.str "Main"),
    ("suffixType", PyVal.str "St")])]

/-- A Census response holding exactly `exCensusRow`. -/
def exCensusResp : PyVal := PyVal.dict [
  ("result", PyVal.dict [("addressMatches", PyVal.list [exCensusRow])])]

/-- The candidate `USCensus._geocode` builds from `exCensusRow`. -/
def exCensusCand : Candidate :=
  { match_addr := some (PyVal.str "123 Main St, Philadelphia, PA, 19107"),
    x := some (PyVal.num (-75)),
    y := some (PyVal.num 40),
    geoservice := some (PyVal.str "USCensus"),
    match_city := some (PyVal.str "Philadelphia"),
    match_region := some (PyVal.str "PA"),
    match_postal := some (PyVal.str "19107"),
    match_subregion := some (PyVal.str ""),
    match_country := some (PyVal.str "USA"),
    match_streetaddr := some (PyVal.str "123 Main St") }

/-- A well-formed MapQuest location row with two address elements. -/
def exMapQuestRow : PyVal := PyVal.dict [
  ("geocodeQuality", PyVal.str "POINT"),
  ("geocodeQualityCode", PyVal.str "P1AAA"),
  ("street", PyVal.str "123 Main St"),
  ("adminArea5", PyVal.str "Philadelphia"),
  ("latLng", PyVal.dict [("lat", PyVal.num 40), ("lng", PyVal.num (-75))])]

/-- A MapQuest response holding exactly `exMapQuestRow`. -/
def exMapQuestResp : PyVal := PyVal.dict [
  ("results", PyVal.list [PyVal.dict [("locations", PyVal.list [exMapQuestRow])]])]

/-- The candidate `MapQuest._geocode` builds from `exMapQuestRow`. -/
def exMapQuestCand : Candidate :=
  { locator := some (PyVal.str "POINT"),
    confidence := some (PyVal.str "P1AAA"),
    match_addr := some (PyVal.str "123 Main St, Philadelphia"),
    x := some (PyVal.num (-75)),
    y := some (PyVal.num 40),
    wkid := PyVal.num 4326,
    geoservice := some (PyVal.str "MapQuest") }

/-- A well-formed Nominatim result row with numeric coordinates. -/
def exNominatimRow : PyVal := PyVal.dict [
  ("class", PyVal.str "place"),
  ("type", PyVal.str "house"),
  ("display_name", PyVal.str "Wolf Building, 340, N 12th St"),
  ("lon", PyVal.num (-75)),
  ("lat", PyVal.num 40)]

/-- A Nominatim response holding exactly `exNominatimRow`. -/
def exNominatimResp : PyVal := PyVal.list [exNominatimRow]

/-- The candidate `Nominatim._geocode` builds from `exNominatimRow`. -/
def exNominatimCand : Candidate :=
  { locator := some (PyVal.str "parcel"),
    entity := some (PyVal.str "place.house"),
    match_addr := some (PyVal.str "Wolf Building, 340, N 12th St"),
    x := some (PyVal.num (-75)),
    y := some (PyVal.num 40),
    wkid := PyVal.num 4326,
    geoservice := some (PyVal.str "Nominatim") }

/-- An attribute value holds a number (as opposed to a string or other
JSON value, or being unset). -/
def isNumeric : Option PyVal → Bool
  | some (PyVal.num _) => true
  | _ => false

/-- A Bing resource row whose JSON delivers the coordinates as strings. -/
def exBingRowStrCoords : PyVal := PyVal.dict [
  ("entityType", PyVal.str "Address"),
  ("geocodePoints", PyVal.list [PyVal.dict [
    ("calculationMethod", PyVal.str "Rooftop"),
    ("coordinates", PyVal.list [PyVal.str "47.64", PyVal.str "-122.13"])]]),
  ("confidence", PyVal.str "High"),
  ("name", PyVal.str "1 Microsoft Way"),
  ("address", PyVal.dict [])]

/-- A Bing response holding exactly `exBingRowStrCoords`. -/
def exBingRespStrCoords : PyVal := PyVal.dict [
  ("resourceSets", PyVal.list [PyVal.dict [("resources", PyVal.list [exBingRowStrCoords])]])]

/-- The candidate `Bing._geocode` builds from `exBingRowStrCoords`: the
coordinate strings are copied into `x`/`y` unchanged. -/
def exBingCandStrCoords : Candidate :=
  { entity := some (PyVal.str "Address"),
    locator := some (PyVal.str "Rooftop"),
    confidence := some (PyVal.str "High"),
    match_addr := some (PyVal.str "1 Microsoft Way"),
    x := some (PyVal.str "-122.13"),
    y := some (PyVal.str "47.64"),
    wkid := PyVal.num 4326,
    address := some (PyVal.dict []),
    geoservice := some (PyVal.str "Bing") }

/-- A MapQuest location row carrying only the quality and coordinate
fields: none of the five matched-address elements is present. -/
def exMapQuestBareRow : PyVal := PyVal.dict [
  ("geocodeQuality", PyVal.str "POINT"),
  ("geocodeQualityCode", PyVal.str "P1AAA"),
  ("latLng", PyVal.dict [("lat", PyVal.num 40), ("lng", PyVal.num (-75))])]

/-- A MapQuest response holding exactly `exMapQuestBareRow`. -/
def exMapQuestBareResp : PyVal := PyVal.dict [
  ("results", PyVal.list [PyVal.dict [("locations", PyVal.list [exMapQuestBareRow])]])]

/-- The candidate `MapQuest._geocode` builds from `exMapQuestBareRow`:
`match_addr` ends up as the empty string and no entity is ever set. -/
def exMapQuestBareCand : Candidate :=
  { locator := some (PyVal.str "POINT"),
    confidence := some (PyVal.str "P1AAA"),
    match_addr := some (PyVal.str ""),
    x := some (PyVal.num (-75)),
    y := some (PyVal.num 40),
    wkid := PyVal.num 4326,
    geoservice := some (PyVal.str "MapQuest") }

/-- Concrete queries, one per branch of the amended statement. -/
def pqFreeForm : Query := { query := "1 Main St", city := "Bar" }

/-- A whitespace-only free-form query with structured fields. -/
def pqWhitespace : Query :=
  { query := " ", address := "A", city := "B", state := "C", postal := "D", country := "US" }

/-- A structured-only query. -/
def pqStructured : Query := { address := "A", city := "B", state := "C", postal := "D" }

/-- A structured-only query with just address and city. -/
def pqAddrCity : Query := { address := "A", city := "B" }

/-- A free-form-only query. -/
def pqFreeOnly : Query := { query := "foo" }

/-- A free-form query with a structured city. -/
def pqFreeCity : Query := { query := "foo", city := "Bar" }

/-- A Census address match row whose components carry no city, state or
zip. -/
def exCensusBareRow : PyVal := PyVal.dict [
  ("matchedAddress", PyVal.str "123 Main St"),
  ("coordinates", PyVal.dict [("x", PyVal.num (-75)), ("y", PyVal.num 40)]),
  ("addressComponents", PyVal.dict [("streetName", PyVal.str "Main")])]

/-- A Census response holding exactly `exCensusBareRow`. -/
def exCensusBareResp : PyVal := PyVal.dict [
  ("result", PyVal.dict [("addressMatches", PyVal.list [exCensusBareRow])])]

/-- The candidate `USCensus._geocode` builds from `exCensusBareRow`:
all three optional components default to the empty string. -/
def exCensusBareCand : Candidate :=
  { match_addr := some (PyVal.str "123 Main St"),
    x := some (PyVal.num (-75)),
    y := some (PyVal.num 40),
    geoservice := some (PyVal.str "USCensus"),
    match_city := some (PyVal.str ""),
    match_region := some (PyVal.str ""),
    match_postal := some (PyVal.str ""),
    match_subregion := some (PyVal.str ""),
    match_country := some (PyVal.str "USA"),
    match_streetaddr := some (PyVal.str "123 Main") }

/-! ## Inversion helpers and claim theorems -/

theorem exceptBind_ok {α β : Type} {x : Except String α} {f : α → Except String β} {b : β}
    (h : x >>= f = Except.ok b) : ∃ a, x = Except.ok a ∧ f a = Except.ok b := by
  cases x with
  | error e => simp [Bind.bind, Except.bind] at h
  | ok a => exact ⟨a, rfl, by simpa [Bind.bind, Except.bind] using h⟩

theorem exceptMapM_ok_mem {α β : Type} {f : α → Except String β} :
    ∀ {xs : List α} {ys : List β}, xs.mapM f = Except.ok ys →
      ∀ {y : β}, y ∈ ys → ∃ x, x ∈ xs ∧ f x = Except.ok y := by
  intro xs
  induction xs with
  | nil =>
      intro ys h y hy
      rw [List.mapM_nil] at h
      cases h
      simp at hy
  | cons a t ih =>
      intro ys h y hy
      rw [List.mapM_cons] at h
      obtain ⟨b, hb, h2⟩ := exceptBind_ok h
      obtain ⟨bs, hbs, h3⟩ := exceptBind_ok h2
      have hys : ys = b :: bs := by
        simpa [Pure.pure, Except.pure] using h3.symm
      subst hys
      rcases List.mem_cons.mp hy with hyb | hybs
      · exact ⟨a, List.mem_cons_self a t, hyb ▸ hb⟩
      · obtain ⟨x, hx, hfx⟩ := ih hbs hybs
        exact ⟨x, List.mem_cons_of_mem a hx, hfx⟩

theorem bing_candidateOfRow_inv {r : PyVal} {c : Candidate}
    (h : Bing.candidateOfRow r = Except.ok c) :
    ∃ entity gps gp0 locator confidence name coords x y address,
      jLookup r "entityType" = Except.ok entity ∧
      jLookup r "geocodePoints" = Except.ok gps ∧
      jIndex gps 0 = Except.ok gp0 ∧
      jLookup gp0 "calculationMethod" = Except.ok locator ∧
      jLookup r "confidence" = Except.ok confidence ∧
      jLookup r "name" = Except.ok name ∧
      jLookup gp0 "coordinates" = Except.ok coords ∧
      jIndex coords 1 = Except.ok x ∧
      jIndex coords 0 = Except.ok y ∧
      jLookup r "address" = Except.ok address ∧
      c = { entity := some entity, locator := some locator, confidence := some confidence,
            match_addr := some name, x := some x, y := some y, wkid := PyVal.num 4326,
            address := some address, geoservice := some (PyVal.str "Bing") } := by
  unfold Bing.candidateOfRow at h
  obtain ⟨entity, h1, h⟩ := exceptBind_ok h
  obtain ⟨gps, h2, h⟩ := exceptBind_ok h
  obtain ⟨gp0, h3, h⟩ := exceptBind_ok h
  obtain ⟨locator, h4, h⟩ := exceptBind_ok h
  obtain ⟨confidence, h5, h⟩ := exceptBind_ok h
  obtain ⟨name, h6, h⟩ := exceptBind_ok h
  obtain ⟨coords, h7, h⟩ := exceptBind_ok h
  obtain ⟨x, h8, h⟩ := exceptBind_ok h
  obtain ⟨y, h9, h⟩ := exceptBind_ok h
  obtain ⟨address, h10, h⟩ := exceptBind_ok h
  cases h
  exact ⟨entity, gps, gp0, locator, confidence, name, coords, x, y, address,
    h1, h2, h3, h4, h5, h6, h7, h8, h9, h10, rfl⟩

theorem bing_candidatesOfResponse_inv {resp : PyVal} {cands : List Candidate}
    (h : Bing.candidatesOfResponse resp = Except.ok cands) :
    ∃ rsets rs0 resources rows,
      jLookup resp "resourceSets" = Except.ok rsets ∧
      jIndex rsets 0 = Except.ok rs0 ∧
      jLookup rs0 "resources" = Except.ok resources ∧
      asList resources = Except.ok rows ∧
      rows.mapM Bing.candidateOfRow = Except.ok cands := by
  unfold Bing.candidatesOfResponse at h
  obtain ⟨rsets, h1, h⟩ := exceptBind_ok h
  obtain ⟨rs0, h2, h⟩ := exceptBind_ok h
  obtain ⟨resources, h3, h⟩ := exceptBind_ok h
  obtain ⟨rows, h4, h⟩ := exceptBind_ok h
  exact ⟨rsets, rs0, resources, rows, h1, h2, h3, h4, h⟩

theorem bing_geocode_inv {api_key : String} {pq : Query} {resp : PyVal}
    {out : List (String × String) × List Candidate}
    (h : Bing._geocode api_key pq resp = Except.ok out) :
    Bing.candidatesOfResponse resp = Except.ok out.2 ∧
    out.1 = Bing.buildQuery api_key pq := by
  unfold Bing._geocode at h
  obtain ⟨cands, h1, h⟩ := exceptBind_ok h
  cases h
  exact ⟨h1, rfl⟩

theorem uscensus_candidateOfRow_inv {r : PyVal} {c : Candidate}
    (h : USCensus.candidateOfRow r = Except.ok c) :
    ∃ matchedAddress coords x y compKvs city state zip streetaddr,
      jLookup r "matchedAddress" = Except.ok matchedAddress ∧
      jLookup r "coordinates" = Except.ok coords ∧
      jLookup coords "x" = Except.ok x ∧
      jLookup coords "y" = Except.ok y ∧
      jLookup r "addressComponents" = Except.ok (PyVal.dict compKvs) ∧
      city = (alistLookup compKvs "city").getD (PyVal.str "") ∧
      state = (alistLookup compKvs "state").getD (PyVal.str "") ∧
      zip = (alistLookup compKvs "zip").getD (PyVal.str "") ∧
      USCensus._street_addr_from_response r = Except.ok streetaddr ∧
      c = { match_addr := some matchedAddress, x := some x, y := some y,
            geoservice := some (PyVal.str "USCensus"),
            match_city := some city, match_region := some state,
            match_postal := some zip, match_subregion := some (PyVal.str ""),
            match_country := some (PyVal.str "USA"),
            match_streetaddr := some streetaddr } := by
  unfold USCensus.candidateOfRow at h
  obtain ⟨matchedAddress, h1, h⟩ := exceptBind_ok h
  obtain ⟨coords, h2, h⟩ := exceptBind_ok h
  obtain ⟨x, h3, h⟩ := exceptBind_ok h
  obtain ⟨y, h4, h⟩ := exceptBind_ok h
  obtain ⟨comps, h5, h⟩ := exceptBind_ok h
  obtain ⟨city, h6, h⟩ := exceptBind_ok h
  obtain ⟨state, h7, h⟩ := exceptBind_ok h
  obtain ⟨zip, h8, h⟩ := exceptBind_ok h
  obtain ⟨streetaddr, h9, h⟩ := exceptBind_ok h
  cases h
  cases comps with
  | dict compKvs =>
      refine ⟨matchedAddress, coords, x, y, compKvs, city, state, zip, streetaddr,
        h1, h2, h3, h4, h5, ?_, ?_, ?_, h9, rfl⟩
      · simpa [jGetD] using h6.symm
      · simpa [jGetD] using h7.symm
      · simpa [jGetD] using h8.symm
  | str s => simp [jGetD] at h6
  | num q => simp [jGetD] at h6
  | list xs => simp [jGetD] at h6
  | none => simp [jGetD] at h6

theorem uscensus_candidatesOfResponse_inv {resp : PyVal} {cands : List Candidate}
    (h : USCensus.candidatesOfResponse resp = Except.ok cands) :
    ∃ result addressMatches rows,
      jLookup resp "result" = Except.ok result ∧
      jLookup result "addressMatches" = Except.ok addressMatches ∧
      asList addressMatches = Except.ok rows ∧
      rows.mapM USCensus.candidateOfRow = Except.ok cands := by
  unfold USCensus.candidatesOfResponse at h
  obtain ⟨result, h1, h⟩ := exceptBind_ok h
  obtain ⟨addressMatches, h2, h⟩ := exceptBind_ok h
  obtain ⟨rows, h3, h⟩ := exceptBind_ok h
  exact ⟨result, addressMatches, rows, h1, h2, h3, h⟩

theorem uscensus_geocode_inv {pq : Query} {resp : PyVal}
    {out : (String × List (String × String)) × List Candidate}
    (h : USCensus._geocode pq resp = Except.ok out) :
    USCensus.candidatesOfResponse resp = Except.ok out.2 ∧
    out.1 = USCensus.buildRequest pq := by
  unfold USCensus._geocode at h
  obtain ⟨cands, h1, h⟩ := exceptBind_ok h
  cases h
  exact ⟨h1, rfl⟩

theorem mapquest_candidateOfRow_inv {className : String} {r : PyVal} {c : Candidate}
    (h : MapQuest.candidateOfRow className r = Except.ok c) :
    ∃ locator confidence presentVals latLng x y,
      jLookup r "geocodeQuality" = Except.ok locator ∧
      jLookup r "geocodeQualityCode" = Except.ok confidence ∧
      (MapQuest.match_addr_elements.filter (fun k => jHasKey r k)).mapM
        (fun k => jLookup r k >>= asStr) = Except.ok presentVals ∧
      jLookup r "latLng" = Except.ok latLng ∧
      jLookup latLng "lng" = Except.ok x ∧
      jLookup latLng "lat" = Except.ok y ∧
      c = { locator := some locator, confidence := some confidence,
            match_addr := some (PyVal.str (joinWith ", " presentVals)),
            x := some x, y := some y, wkid := PyVal.num 4326,
            geoservice := some (PyVal.str className) } := by
  unfold MapQuest.candidateOfRow at h
  obtain ⟨locator, h1, h⟩ := exceptBind_ok h
  obtain ⟨confidence, h2, h⟩ := exceptBind_ok h
  obtain ⟨presentVals, h3, h⟩ := exceptBind_ok h
  obtain ⟨latLng, h4, h⟩ := exceptBind_ok h
  obtain ⟨x, h5, h⟩ := exceptBind_ok h
  obtain ⟨y, h6, h⟩ := exceptBind_ok h
  cases h
  exact ⟨locator, confidence, presentVals, latLng, x, y, h1, h2, h3, h4, h5, h6, rfl⟩

theorem mapquest_candidatesOfResponse_inv {className : String} {resp : PyVal}
    {cands : List Candidate}
    (h : MapQuest.candidatesOfResponse className resp = Except.ok cands) :
    ∃ results r0 locations rows,
      jLookup resp "results" = Except.ok results ∧
      jIndex results 0 = Except.ok r0 ∧
      jLookup r0 "locations" = Except.ok locations ∧
      asList locations = Except.ok rows ∧
      rows.mapM (MapQuest.candidateOfRow className) = Except.ok cands := by
  unfold MapQuest.candidatesOfResponse at h
  obtain ⟨results, h1, h⟩ := exceptBind_ok h
  obtain ⟨r0, h2, h⟩ := exceptBind_ok h
  obtain ⟨locations, h3, h⟩ := exceptBind_ok h
  obtain ⟨rows, h4, h⟩ := exceptBind_ok h
  exact ⟨results, r0, locations, rows, h1, h2, h3, h4, h⟩

theorem mapquest_geocode_inv {className : String} {pq : Query} {resp : PyVal}
    {out : List (String × String) × List Candidate}
    (h : MapQuest._geocode className pq resp = Except.ok out) :
    MapQuest.candidatesOfResponse className resp = Except.ok out.2 ∧
    out.1 = MapQuest.location pq := by
  unfold MapQuest._geocode at h
  obtain ⟨cands, h1, h⟩ := exceptBind_ok h
  cases h
  exact ⟨h1, rfl⟩

theorem nominatim_candidateOfRow_inv {r : PyVal} {c : Candidate}
    (h : Nominatim.candidateOfRow r = Except.ok c) :
    ∃ cls typ display_name lon x lat y,
      jLookup r "class" = Except.ok cls ∧
      jLookup r "type" = Except.ok typ ∧
      jLookup r "display_name" = Except.ok display_name ∧
      jLookup r "lon" = Except.ok lon ∧
      pyFloat lon = Except.ok x ∧
      jLookup r "lat" = Except.ok lat ∧
      pyFloat lat = Except.ok y ∧
      c = { locator := some (PyVal.str "parcel"),
            entity := some (PyVal.str (pyToStr cls ++ "." ++ pyToStr typ)),
            match_addr := some display_name,
            x := some (PyVal.num x), y := some (PyVal.num y),
            wkid := PyVal.num Nominatim._wkid,
            geoservice := some (PyVal.str "Nominatim") } := by
  unfold Nominatim.candidateOfRow at h
  obtain ⟨cls, h1, h⟩ := exceptBind_ok h
  obtain ⟨typ, h2, h⟩ := exceptBind_ok h
  obtain ⟨display_name, h3, h⟩ := exceptBind_ok h
  obtain ⟨lon, h4, h⟩ := exceptBind_ok h
  obtain ⟨x, h5, h⟩ := exceptBind_ok h
  obtain ⟨lat, h6, h⟩ := exceptBind_ok h
  obtain ⟨y, h7, h⟩ := exceptBind_ok h
  cases h
  exact ⟨cls, typ, display_name, lon, x, lat, y, h1, h2, h3, h4, h5, h6, h7, rfl⟩

theorem nominatim_candidatesOfResponse_inv {resp : PyVal} {cands : List Candidate}
    (h : Nominatim.candidatesOfResponse resp = Except.ok cands) :
    ∃ rows,
      asList resp = Except.ok rows ∧
      rows.mapM Nominatim.candidateOfRow = Except.ok cands := by
  unfold Nominatim.candidatesOfResponse at h
  obtain ⟨rows, h1, h⟩ := exceptBind_ok h
  exact ⟨rows, h1, h⟩

theorem nominatim_geocode_inv {pq : Query} {resp : PyVal}
    {out : List (String × String) × List Candidate}
    (h : Nominatim._geocode pq resp = Except.ok out) :
    Nominatim.candidatesOfResponse resp = Except.ok out.2 ∧
    out.1 = Nominatim.buildQuery pq := by
  unfold Nominatim._geocode at h
  obtain ⟨cands, h1, h⟩ := exceptBind_ok h
  cases h
  exact ⟨h1, rfl⟩

/-- C3: a `Bing` service constructed with `postprocessors=None` uses an
empty postprocessor chain: the class attribute `DEFAULT_POSTPROCESSORS`
is first bound to the migrate/control/filter/rename/sort/group stage
list of lines 35-69 and then immediately rebound to `[]` at line 70, so
`__init__` falls back to the empty list and none of the declared default
stages is applied by default. -/
theorem bing_default_postprocessors_rebound_to_empty :
    Bing.DEFAULT_POSTPROCESSORS_declared.map stageKind =
      [StageKind.migrate, StageKind.control, StageKind.filter, StageKind.rename,
       StageKind.sort, StageKind.sort, StageKind.sort, StageKind.group, StageKind.group] ∧
    Bing.DEFAULT_POSTPROCESSORS = [] ∧
    Bing.effectivePostprocessors Option.none = [] :=
  ⟨rfl, rfl, rfl⟩

/-- C6 (counterexample): the filter-before-rename/migrate ordering fails
on Bing's declared default postprocessor list, whose first stage is the
confidence-to-score `AttrMigrator` while its `AttrFilter` stage only
comes third. -/
theorem bing_declared_chain_breaks_category_order :
    chainFollowsOrder Bing.DEFAULT_POSTPROCESSORS_declared = false ∧
    (Bing.DEFAULT_POSTPROCESSORS_declared.map stageKind).take 3 =
      [StageKind.migrate, StageKind.control, StageKind.filter] :=
  ⟨rfl, rfl⟩

/-- C6 (amended): the declared default chains follow the
filters/excludes, then renamers/migrators, then sorters, then
group-dedup ordering except for the one migrator Bing declares first:
Nominatim's declared default list follows the order, Bing's effective
default list (the empty rebinding) trivially follows it, and Bing's
declared (overridden) stage list follows it once its leading
confidence-to-score `AttrMigrator` is set aside. -/
theorem default_chains_follow_category_order_amended :
    chainFollowsOrder Nominatim.DEFAULT_POSTPROCESSORS = true ∧
    chainFollowsOrder Bing.DEFAULT_POSTPROCESSORS = true ∧
    chainFollowsOrder (Bing.DEFAULT_POSTPROCESSORS_declared.drop 1) = true ∧
    (Bing.DEFAULT_POSTPROCESSORS_declared.map stageKind).take 1 = [StageKind.migrate] :=
  ⟨rfl, rfl, rfl, rfl⟩

/-- C4: every candidate in the list returned by any adapter's `_geocode`
(Bing, USCensus, MapQuest, Nominatim) has its `geoservice` attribute set
to the adapter class name before the list is returned
(`self.__class__.__name__`, so a MapQuest subclass stamps its own
name). -/
theorem geocode_sets_geoservice :
    (∀ (api_key : String) (pq : Query) (resp : PyVal) out,
      Bing._geocode api_key pq resp = Except.ok out →
      ∀ c ∈ out.2, c.geoservice = some (PyVal.str "Bing")) ∧
    (∀ (pq : Query) (resp : PyVal) out,
      USCensus._geocode pq resp = Except.ok out →
      ∀ c ∈ out.2, c.geoservice = some (PyVal.str "USCensus")) ∧
    (∀ (className : String) (pq : Query) (resp : PyVal) out,
      MapQuest._geocode className pq resp = Except.ok out →
      ∀ c ∈ out.2, c.geoservice = some (PyVal.str className)) ∧
    (∀ (pq : Query) (resp : PyVal) out,
      Nominatim._geocode pq resp = Except.ok out →
      ∀ c ∈ out.2, c.geoservice = some (PyVal.str "Nominatim")) := by
  refine ⟨?_, ?_, ?_, ?_⟩
  · intro api_key pq resp out h c hc
    obtain ⟨hresp, -⟩ := bing_geocode_inv h
    obtain ⟨_, _, _, _, -, -, -, -, hmap⟩ := bing_candidatesOfResponse_inv hresp
    obtain ⟨r, -, hr⟩ := exceptMapM_ok_mem hmap hc
    obtain ⟨_, _, _, _, _, _, _, _, _, _, -, -, -, -, -, -, -, -, -, -, hc'⟩ :=
      bing_candidateOfRow_inv hr
    subst hc'
    rfl
  · intro pq resp out h c hc
    obtain ⟨hresp, -⟩ := uscensus_geocode_inv h
    obtain ⟨_, _, _, -, -, -, hmap⟩ := uscensus_candidatesOfResponse_inv hresp
    obtain ⟨r, -, hr⟩ := exceptMapM_ok_mem hmap hc
    obtain ⟨_, _, _, _, _, _, _, _, _, -, -, -, -, -, -, -, -, -, hc'⟩ :=
      uscensus_candidateOfRow_inv hr
    subst hc'
    rfl
  · intro className pq resp out h c hc
    obtain ⟨hresp, -⟩ := mapquest_geocode_inv h
    obtain ⟨_, _, _, _, -, -, -, -, hmap⟩ := mapquest_candidatesOfResponse_inv hresp
    obtain ⟨r, -, hr⟩ := exceptMapM_ok_mem hmap hc
    obtain ⟨_, _, _, _, _, _, -, -, -, -, -, -, hc'⟩ := mapquest_candidateOfRow_inv hr
    subst hc'
    rfl
  · intro pq resp out h c hc
    obtain ⟨hresp, -⟩ := nominatim_geocode_inv h
    obtain ⟨_, -, hmap⟩ := nominatim_candidatesOfResponse_inv hresp
    obtain ⟨r, -, hr⟩ := exceptMapM_ok_mem hmap hc
    obtain ⟨_, _, _, _, _, _, _, -, -, -, -, -, -, -, hc'⟩ := nominatim_candidateOfRow_inv hr
    subst hc'
    rfl

/-- C4 (witness): the invariant applied to one concrete response per
adapter. -/
theorem geocode_sets_geoservice_witness :
    exBingCand.geoservice = some (PyVal.str "Bing") ∧
    exCensusCand.geoservice = some (PyVal.str "USCensus") ∧
    exMapQuestCand.geoservice = some (PyVal.str "MapQuest") ∧
    exNominatimCand.geoservice = some (PyVal.str "Nominatim") := by
  refine ⟨?_, ?_, ?_, ?_⟩
  · exact geocode_sets_geoservice.1 "k" { query := "q" } exBingResp
      ([("query", "q"), ("key", "k")], [exBingCand]) rfl exBingCand
      (List.mem_singleton.mpr rfl)
  · exact geocode_sets_geoservice.2.1 { query := "q" } exCensusResp
      (USCensus.buildRequest { query := "q" }, [exCensusCand]) rfl exCensusCand
      (List.mem_singleton.mpr rfl)
  · exact geocode_sets_geoservice.2.2.1 "MapQuest" { query := "q" } exMapQuestResp
      ([("street", "q")], [exMapQuestCand]) rfl exMapQuestCand
      (List.mem_singleton.mpr rfl)
  · exact geocode_sets_geoservice.2.2.2 { query := "q" } exNominatimResp
      ([("q", "q"), ("countrycodes", ""), ("format", "json")], [exNominatimCand]) rfl
      exNominatimCand (List.mem_singleton.mpr rfl)

/-- C7: every candidate returned by an adapter's `_geocode` leaves the
adapter with `wkid` equal to 4326: Bing and MapQuest assign the literal,
Nominatim assigns `self._wkid = 4326`, and USCensus never touches the
attribute, leaving the `Candidate` constructor's spec-stated default of
4326 in place. -/
theorem geocode_candidates_wkid_4326 :
    (∀ (api_key : String) (pq : Query) (resp : PyVal) out,
      Bing._geocode api_key pq resp = Except.ok out →
      ∀ c ∈ out.2, c.wkid = PyVal.num 4326) ∧
    (∀ (pq : Query) (resp : PyVal) out,
      USCensus._geocode pq resp = Except.ok out →
      ∀ c ∈ out.2, c.wkid = PyVal.num 4326) ∧
    (∀ (className : String) (pq : Query) (resp : PyVal) out,
      MapQuest._geocode className pq resp = Except.ok out →
      ∀ c ∈ out.2, c.wkid = PyVal.num 4326) ∧
    (∀ (pq : Query) (resp : PyVal) out,
      Nominatim._geocode pq resp = Except.ok out →
      ∀ c ∈ out.2, c.wkid = PyVal.num 4326) := by
  refine ⟨?_, ?_, ?_, ?_⟩
  · intro api_key pq resp out h c hc
    obtain ⟨hresp, -⟩ := bing_geocode_inv h
    obtain ⟨_, _, _, _, -, -, -, -, hmap⟩ := bing_candidatesOfResponse_inv hresp
    obtain ⟨r, -, hr⟩ := exceptMapM_ok_mem hmap hc
    obtain ⟨_, _, _, _, _, _, _, _, _, _, -, -, -, -, -, -, -, -, -, -, hc'⟩ :=
      bing_candidateOfRow_inv hr
    subst hc'
    rfl
  · intro pq resp out h c hc
    obtain ⟨hresp, -⟩ := uscensus_geocode_inv h
    obtain ⟨_, _, _, -, -, -, hmap⟩ := uscensus_candidatesOfResponse_inv hresp
    obtain ⟨r, -, hr⟩ := exceptMapM_ok_mem hmap hc
    obtain ⟨_, _, _, _, _, _, _, _, _, -, -, -, -, -, -, -, -, -, hc'⟩ :=
      uscensus_candidateOfRow_inv hr
    subst hc'
    rfl
  · intro className pq resp out h c hc
    obtain ⟨hresp, -⟩ := mapquest_geocode_inv h
    obtain ⟨_, _, _, _, -, -, -, -, hmap⟩ := mapquest_candidatesOfResponse_inv hresp
    obtain ⟨r, -, hr⟩ := exceptMapM_ok_mem hmap hc
    obtain ⟨_, _, _, _, _, _, -, -, -, -, -, -, hc'⟩ := mapquest_candidateOfRow_inv hr
    subst hc'
    rfl
  · intro pq resp out h c hc
    obtain ⟨hresp, -⟩ := nominatim_geocode_inv h
    obtain ⟨_, -, hmap⟩ := nominatim_candidatesOfResponse_inv hresp
    obtain ⟨r, -, hr⟩ := exceptMapM_ok_mem hmap hc
    obtain ⟨_, _, _, _, _, _, _, -, -, -, -, -, -, -, hc'⟩ := nominatim_candidateOfRow_inv hr
    subst hc'
    rfl

/-- C7 (witness): the invariant applied to one concrete response per
adapter. -/
theorem geocode_candidates_wkid_4326_witness :
    exBingCand.wkid = PyVal.num 4326 ∧
    exCensusCand.wkid = PyVal.num 4326 ∧
    exMapQuestCand.wkid = PyVal.num 4326 ∧
    exNominatimCand.wkid = PyVal.num 4326 := by
  refine ⟨?_, ?_, ?_, ?_⟩
  · exact geocode_candidates_wkid_4326.1 "k" { query := "q" } exBingResp
      ([("query", "q"), ("key", "k")], [exBingCand]) rfl exBingCand
      (List.mem_singleton.mpr rfl)
  · exact geocode_candidates_wkid_4326.2.1 { query := "q" } exCensusResp
      (USCensus.buildRequest { query := "q" }, [exCensusCand]) rfl exCensusCand
      (List.mem_singleton.mpr rfl)
  · exact geocode_candidates_wkid_4326.2.2.1 "MapQuest" { query := "q" } exMapQuestResp
      ([("street", "q")], [exMapQuestCand]) rfl exMapQuestCand
      (List.mem_singleton.mpr rfl)
  · exact geocode_candidates_wkid_4326.2.2.2 { query := "q" } exNominatimResp
      ([("q", "q"), ("countrycodes", ""), ("format", "json")], [exNominatimCand]) rfl
      exNominatimCand (List.mem_singleton.mpr rfl)

/-- C8: a provider response containing zero result rows makes the
adapter's `_geocode` return the empty candidate list (no exception, no
fabricated candidates): the row loop simply never runs.  For Bing the
empty row list sits at `resourceSets[0].resources`, for USCensus at
`result.addressMatches`, and for Nominatim the response object is the
row list itself. -/
theorem geocode_zero_rows_empty_list :
    (∀ (api_key : String) (pq : Query) (resp rsets rs0 : PyVal),
      jLookup resp "resourceSets" = Except.ok rsets →
      jIndex rsets 0 = Except.ok rs0 →
      jLookup rs0 "resources" = Except.ok (PyVal.list []) →
      Bing._geocode api_key pq resp = Except.ok (Bing.buildQuery api_key pq, [])) ∧
    (∀ (pq : Query) (resp result : PyVal),
      jLookup resp "result" = Except.ok result →
      jLookup result "addressMatches" = Except.ok (PyVal.list []) →
      USCensus._geocode pq resp = Except.ok (USCensus.buildRequest pq, [])) ∧
    (∀ (pq : Query),
      Nominatim._geocode pq (PyVal.list []) =
        Except.ok (Nominatim.buildQuery pq, [])) := by
  refine ⟨?_, ?_, ?_⟩
  · intro api_key pq resp rsets rs0 h1 h2 h3
    unfold Bing._geocode Bing.candidatesOfResponse
    rw [h1]
    simp only [Bind.bind, Except.bind]
    rw [h2]
    simp only [Except.bind]
    rw [h3]
    simp only [Except.bind, asList, List.mapM_nil, Pure.pure, Except.pure]
  · intro pq resp result h1 h2
    unfold USCensus._geocode USCensus.candidatesOfResponse
    rw [h1]
    simp only [Bind.bind, Except.bind]
    rw [h2]
    simp only [Except.bind, asList, List.mapM_nil, Pure.pure, Except.pure]
  · intro pq
    rfl

/-- C8 (witness): concrete zero-match responses for each adapter. -/
theorem geocode_zero_rows_empty_list_witness :
    Bing._geocode "k" { query := "q" }
      (PyVal.dict [("resourceSets", PyVal.list [PyVal.dict [("resources", PyVal.list [])]])]) =
      Except.ok (Bing.buildQuery "k" { query := "q" }, []) ∧
    USCensus._geocode { query := "q" }
      (PyVal.dict [("result", PyVal.dict [("addressMatches", PyVal.list [])])]) =
      Except.ok (USCensus.buildRequest { query := "q" }, []) ∧
    Nominatim._geocode { query := "q" } (PyVal.list []) =
      Except.ok (Nominatim.buildQuery { query := "q" }, []) := by
  refine ⟨?_, ?_, ?_⟩
  · exact geocode_zero_rows_empty_list.1 "k" { query := "q" }
      (PyVal.dict [("resourceSets", PyVal.list [PyVal.dict [("resources", PyVal.list [])]])])
      (PyVal.list [PyVal.dict [("resources", PyVal.list [])]])
      (PyVal.dict [("resources", PyVal.list [])]) rfl rfl rfl
  · exact geocode_zero_rows_empty_list.2.1 { query := "q" }
      (PyVal.dict [("result", PyVal.dict [("addressMatches", PyVal.list [])])])
      (PyVal.dict [("addressMatches", PyVal.list [])]) rfl rfl
  · exact geocode_zero_rows_empty_list.2.2 { query := "q" }

/-- C5 (counterexample): when the provider's JSON delivers coordinates
as strings, `Bing._geocode` returns a candidate whose `x` and `y` are
those strings, not numbers — the assignments at lines 107-108 copy the
raw JSON values with no numeric cast, so the claimed "numeric regardless
of string delivery" fails for Bing (and likewise USCensus). -/
theorem bing_string_coordinates_not_numeric :
    Bing._geocode "k" { query := "q" } exBingRespStrCoords =
      Except.ok ([("query", "q"), ("key", "k")], [exBingCandStrCoords]) ∧
    exBingCandStrCoords.x = some (PyVal.str "-122.13") ∧
    exBingCandStrCoords.y = some (PyVal.str "47.64") ∧
    isNumeric exBingCandStrCoords.x = false ∧
    isNumeric exBingCandStrCoords.y = false :=
  ⟨rfl, rfl, rfl, rfl, rfl⟩

/-- C5 (amended): Nominatim passes `lon`/`lat` through `float()`, so the
candidates it returns have numeric `x`/`y` whether the JSON delivered
numbers or decimal strings; Bing and USCensus copy the raw JSON
coordinate values into `x`/`y` unchanged, so their candidates' `x`/`y`
are numeric exactly when the provider delivered numbers. -/
theorem geocode_coordinate_types_amended :
    (∀ (pq : Query) (resp : PyVal) out,
      Nominatim._geocode pq resp = Except.ok out →
      ∀ c ∈ out.2, isNumeric c.x = true ∧ isNumeric c.y = true) ∧
    (∀ (r : PyVal) (c : Candidate),
      Bing.candidateOfRow r = Except.ok c →
      ∃ gps gp0 coords vx vy,
        jLookup r "geocodePoints" = Except.ok gps ∧
        jIndex gps 0 = Except.ok gp0 ∧
        jLookup gp0 "coordinates" = Except.ok coords ∧
        jIndex coords 1 = Except.ok vx ∧
        jIndex coords 0 = Except.ok vy ∧
        c.x = some vx ∧ c.y = some vy) ∧
    (∀ (r : PyVal) (c : Candidate),
      USCensus.candidateOfRow r = Except.ok c →
      ∃ coords vx vy,
        jLookup r "coordinates" = Except.ok coords ∧
        jLookup coords "x" = Except.ok vx ∧
        jLookup coords "y" = Except.ok vy ∧
        c.x = some vx ∧ c.y = some vy) := by
  refine ⟨?_, ?_, ?_⟩
  · intro pq resp out h c hc
    obtain ⟨hresp, -⟩ := nominatim_geocode_inv h
    obtain ⟨_, -, hmap⟩ := nominatim_candidatesOfResponse_inv hresp
    obtain ⟨r, -, hr⟩ := exceptMapM_ok_mem hmap hc
    obtain ⟨_, _, _, _, _, _, _, -, -, -, -, -, -, -, hc'⟩ := nominatim_candidateOfRow_inv hr
    subst hc'
    exact ⟨rfl, rfl⟩
  · intro r c hr
    obtain ⟨_, gps, gp0, _, _, _, coords, vx, vy, _, -, h2, h3, -, -, -, h7, h8, h9, -, hc'⟩ :=
      bing_candidateOfRow_inv hr
    subst hc'
    exact ⟨gps, gp0, coords, vx, vy, h2, h3, h7, h8, h9, rfl, rfl⟩
  · intro r c hr
    obtain ⟨_, coords, vx, vy, _, _, _, _, _, -, h2, h3, h4, -, -, -, -, -, hc'⟩ :=
      uscensus_candidateOfRow_inv hr
    subst hc'
    exact ⟨coords, vx, vy, h2, h3, h4, rfl, rfl⟩

theorem geocode_coordinate_types_amended_witness :
    (isNumeric exNominatimCand.x = true ∧ isNumeric exNominatimCand.y = true) ∧
    (∃ gps gp0 coords vx vy,
      jLookup exBingRow "geocodePoints" = Except.ok gps ∧
      jIndex gps 0 = Except.ok gp0 ∧
      jLookup gp0 "coordinates" = Except.ok coords ∧
      jIndex coords 1 = Except.ok vx ∧
      jIndex coords 0 = Except.ok vy ∧
      exBingCand.x = some vx ∧ exBingCand.y = some vy) ∧
    (∃ coords vx vy,
      jLookup exCensusRow "coordinates" = Except.ok coords ∧
      jLookup coords "x" = Except.ok vx ∧
      jLookup coords "y" = Except.ok vy ∧
      exCensusCand.x = some vx ∧ exCensusCand.y = some vy) := by
  refine ⟨?_, ?_, ?_⟩
  · exact geocode_coordinate_types_amended.1 { query := "q" } exNominatimResp
      ([("q", "q"), ("countrycodes", ""), ("format", "json")], [exNominatimCand]) rfl
      exNominatimCand (List.mem_singleton.mpr rfl)
  · exact geocode_coordinate_types_amended.2.1 exBingRow exBingCand rfl
  · exact geocode_coordinate_types_amended.2.2 exCensusRow exCensusCand rfl

/-- C2 (counterexample): a MapQuest result row with every
matched-address element missing (and no entity type at all) makes
`_geocode` return a candidate with `match_addr` the empty string and
`entity` unset instead of raising: the `[r[k] for k in
match_addr_elements if k in r]` comprehension at line 222 silently skips
absent keys, so "missing matched address implies error" fails for
MapQuest. -/
theorem mapquest_missing_address_fields_no_error :
    MapQuest._geocode "MapQuest" { query := "q" } exMapQuestBareResp =
      Except.ok ([("street", "q")], [exMapQuestBareCand]) ∧
    jHasKey exMapQuestBareRow "street" = false ∧
    jHasKey exMapQuestBareRow "entityType" = false ∧
    exMapQuestBareCand.match_addr = some (PyVal.str "") ∧
    exMapQuestBareCand.entity = Option.none :=
  ⟨rfl, rfl, rfl, rfl, rfl⟩

/-- C2 (amended): Bing's `_geocode` fails fast on a row missing any of
its required fields — it returns a candidate only when entityType,
geocodePoints[0] with its calculationMethod and coordinates[1]/[0],
confidence, name and address were all present; MapQuest requires only
geocodeQuality, geocodeQualityCode and latLng.lng/lat, while its five
matched-address elements are optional and simply omitted from the
joined `match_addr`. -/
theorem adapter_row_required_fields_amended :
    (∀ (r : PyVal) (c : Candidate),
      Bing.candidateOfRow r = Except.ok c →
      (∃ v, jLookup r "entityType" = Except.ok v) ∧
      (∃ gps gp0, jLookup r "geocodePoints" = Except.ok gps ∧
        jIndex gps 0 = Except.ok gp0 ∧
        (∃ v, jLookup gp0 "calculationMethod" = Except.ok v) ∧
        (∃ coords, jLookup gp0 "coordinates" = Except.ok coords ∧
          (∃ v, jIndex coords 1 = Except.ok v) ∧
          (∃ v, jIndex coords 0 = Except.ok v))) ∧
      (∃ v, jLookup r "confidence" = Except.ok v) ∧
      (∃ v, jLookup r "name" = Except.ok v) ∧
      (∃ v, jLookup r "address" = Except.ok v)) ∧
    (∀ (className : String) (r : PyVal) (c : Candidate),
      MapQuest.candidateOfRow className r = Except.ok c →
      (∃ v, jLookup r "geocodeQuality" = Except.ok v) ∧
      (∃ v, jLookup r "geocodeQualityCode" = Except.ok v) ∧
      (∃ latLng, jLookup r "latLng" = Except.ok latLng ∧
        (∃ v, jLookup latLng "lng" = Except.ok v) ∧
        (∃ v, jLookup latLng "lat" = Except.ok v))) := by
  refine ⟨?_, ?_⟩
  · intro r c hr
    obtain ⟨entity, gps, gp0, locator, confidence, name, coords, vx, vy, address,
      h1, h2, h3, h4, h5, h6, h7, h8, h9, h10, -⟩ := bing_candidateOfRow_inv hr
    exact ⟨⟨entity, h1⟩,
      ⟨gps, gp0, h2, h3, ⟨locator, h4⟩, ⟨coords, h7, ⟨vx, h8⟩, ⟨vy, h9⟩⟩⟩,
      ⟨confidence, h5⟩, ⟨name, h6⟩, ⟨address, h10⟩⟩
  · intro className r c hr
    obtain ⟨locator, confidence, presentVals, latLng, vx, vy, h1, h2, -, h4, h5, h6, -⟩ :=
      mapquest_candidateOfRow_inv hr
    exact ⟨⟨locator, h1⟩, ⟨confidence, h2⟩, ⟨latLng, h4, ⟨vx, h5⟩, ⟨vy, h6⟩⟩⟩

/-- C2 (amended, witness): the amended statement applied to the concrete
well-formed example rows. -/
theorem adapter_row_required_fields_amended_witness :
    ((∃ v, jLookup exBingRow "entityType" = Except.ok v) ∧
      (∃ gps gp0, jLookup exBingRow "geocodePoints" = Except.ok gps ∧
        jIndex gps 0 = Except.ok gp0 ∧
        (∃ v, jLookup gp0 "calculationMethod" = Except.ok v) ∧
        (∃ coords, jLookup gp0 "coordinates" = Except.ok coords ∧
          (∃ v, jIndex coords 1 = Except.ok v) ∧
          (∃ v, jIndex coords 0 = Except.ok v))) ∧
      (∃ v, jLookup exBingRow "confidence" = Except.ok v) ∧
      (∃ v, jLookup exBingRow "name" = Except.ok v) ∧
      (∃ v, jLookup exBingRow "address" = Except.ok v)) ∧
    ((∃ v, jLookup exMapQuestRow "geocodeQuality" = Except.ok v) ∧
      (∃ v, jLookup exMapQuestRow "geocodeQualityCode" = Except.ok v) ∧
      (∃ latLng, jLookup exMapQuestRow "latLng" = Except.ok latLng ∧
        (∃ v, jLookup latLng "lng" = Except.ok v) ∧
        (∃ v, jLookup latLng "lat" = Except.ok v))) := by
  refine ⟨?_, ?_⟩
  · exact adapter_row_required_fields_amended.1 exBingRow exBingCand rfl
  · exact adapter_row_required_fields_amended.2 "MapQuest" exMapQuestRow exMapQuestCand rfl

/-- C1 (counterexample): with the non-empty free-form query "foo" and
the structured city "Bar", MapQuest's request location carries both the
street member built from the free-form string and the structured city —
lines 204-205 append the structured fields unconditionally, so the
free-form string is not used "alone".  Bing also deviates at the margin:
a whitespace-only free-form query is non-empty, yet line 78 strips it
and falls back to the structured elements. -/
theorem mapquest_structured_fields_not_ignored :
    MapQuest.location { query := "foo", city := "Bar" } =
      [("street", "foo"), ("city", "Bar")] ∧
    ("foo" : String) ≠ "" ∧
    Bing.baseQuery { query := " ", address := "A" } =
      [("addressLine", "A"), ("locality", ""), ("adminDistrict", ""),
       ("postalCode", ""), ("countryRegion", "")] ∧
    (" " : String) ≠ "" := by
  refine ⟨rfl, by decide, rfl, by decide⟩

/-- C1 (amended): Bing and USCensus build the request from the
free-form string alone when it is non-empty — Bing treating a
whitespace-only string as empty via `strip()`, USCensus testing plain
truthiness — and from the structured fields when it is empty; MapQuest
uses the free-form string only as the street member of the location
(falling back to the structured `address` when it is empty) and then
appends the non-empty structured city/subregion/state/postal/country
fields regardless. -/
theorem query_precedence_amended :
    (∀ pq : Query, pyStrip pq.query ≠ "" →
      Bing.baseQuery pq = [("query", pq.query)]) ∧
    (∀ pq : Query, pyStrip pq.query = "" →
      Bing.baseQuery pq =
        [("addressLine", pq.address), ("locality", pq.city),
         ("adminDistrict", pq.state), ("postalCode", pq.postal),
         ("countryRegion", pq.country)]) ∧
    (∀ pq : Query, pq.query ≠ "" →
      USCensus.buildRequest pq =
        (USCensus._endpoint_base ++ "onelineaddress",
         [("format", "json"), ("benchmark", "Public_AR_Current"),
          ("address", pq.query)])) ∧
    (∀ pq : Query, pq.query = "" →
      USCensus.buildRequest pq =
        (USCensus._endpoint_base ++ "address",
         [("format", "json"), ("benchmark", "Public_AR_Current"),
          ("street", pq.address), ("city", pq.city), ("state", pq.state),
          ("zip", pq.postal)])) ∧
    (∀ pq : Query, pq.query ≠ "" →
      MapQuest.location pq =
        MapQuest.get_appended_location [("street", pq.query)]
          [("city", pq.city), ("county", pq.subregion), ("state", pq.state),
           ("postalCode", pq.postal), ("country", pq.country)]) ∧
    (∀ pq : Query, pq.query = "" →
      MapQuest.location pq =
        MapQuest.get_appended_location
          (MapQuest.get_appended_location [] [("street", pq.address)])
          [("city", pq.city), ("county", pq.subregion), ("state", pq.state),
           ("postalCode", pq.postal), ("country", pq.country)]) := by
  refine ⟨?_, ?_, ?_, ?_, ?_, ?_⟩
  · intro pq h
    simp [Bing.baseQuery, h]
  · intro pq h
    simp [Bing.baseQuery, h]
  · intro pq h
    simp [USCensus.buildRequest, dictSet, h]
  · intro pq h
    simp [USCensus.buildRequest, dictSet, h]
  · intro pq h
    simp [MapQuest.location, MapQuest.get_appended_location, dictSet, h]
  · intro pq h
    simp [MapQuest.location, MapQuest.get_appended_location, dictSet, h]

/-- C1 (amended, witness): the amended statement applied to concrete
queries, one per branch. -/
theorem query_precedence_amended_witness :
    Bing.baseQuery pqFreeForm = [("query", "1 Main St")] ∧
    Bing.baseQuery pqWhitespace =
      [("addressLine", "A"), ("locality", "B"), ("adminDistrict", "C"),
       ("postalCode", "D"), ("countryRegion", "US")] ∧
    USCensus.buildRequest pqFreeOnly =
      (USCensus._endpoint_base ++ "onelineaddress",
       [("format", "json"), ("benchmark", "Public_AR_Current"), ("address", "foo")]) ∧
    USCensus.buildRequest pqStructured =
      (USCensus._endpoint_base ++ "address",
       [("format", "json"), ("benchmark", "Public_AR_Current"),
        ("street", "A"), ("city", "B"), ("state", "C"), ("zip", "D")]) ∧
    MapQuest.location pqFreeCity =
      MapQuest.get_appended_location [("street", "foo")]
        [("city", "Bar"), ("county", ""), ("state", ""),
         ("postalCode", ""), ("country", "")] ∧
    MapQuest.location pqAddrCity =
      MapQuest.get_appended_location
        (MapQuest.get_appended_location [] [("street", "A")])
        [("city", "B"), ("county", ""), ("state", ""),
         ("postalCode", ""), ("country", "")] := by
  refine ⟨?_, ?_, ?_, ?_, ?_, ?_⟩
  · exact query_precedence_amended.1 pqFreeForm (by decide)
  · exact query_precedence_amended.2.1 pqWhitespace (by decide)
  · exact query_precedence_amended.2.2.1 pqFreeOnly (by decide)
  · exact query_precedence_amended.2.2.2.1 pqStructured rfl
  · exact query_precedence_amended.2.2.2.2.1 pqFreeCity (by decide)
  · exact query_precedence_amended.2.2.2.2.2 pqAddrCity rfl

theorem mapM_asStr_map (l : List String) :
    (l.map PyVal.str).mapM asStr = Except.ok l := by
  induction l with
  | nil => rfl
  | cons a t ih =>
      rw [List.map_cons, List.mapM_cons, ih]
      rfl

theorem joinWith_cons_exists (sep a : String) (l : List String) :
    ∃ t, joinWith sep (a :: l) = a ++ t := by
  cases l with
  | nil => exact ⟨"", by simp [joinWith]⟩
  | cons b r => exact ⟨sep ++ joinWith sep (b :: r), by simp [joinWith, String.append_assoc]⟩

/-- C9: `USCensus._street_addr_from_response` on a match row whose
`matchedAddress` is the string `s` and whose ordered address component
fields read back as the strings `comps`: it returns the empty string
exactly when `s` does not begin with a decimal digit; when `s` does
begin with digits it returns the leading digit run followed by the
non-empty components joined by single spaces — a non-empty string
starting with that digit run — and the final `else` branch behind the
`any(result)` test can never run, because the digit run itself is a
truthy member of `result`. -/
theorem uscensus_street_addr_spec (s : String) (kvs : List (String × PyVal)) (m : PyVal)
    (comps : List String)
    (hma : jLookup m "matchedAddress" = Except.ok (PyVal.str s))
    (hcomp : jLookup m "addressComponents" = Except.ok (PyVal.dict kvs))
    (hfields : USCensus.ordered_fields.mapM (fun f => jGetD (PyVal.dict kvs) f (PyVal.str "")) =
      Except.ok (comps.map PyVal.str)) :
    (leadingDigits s = "" → USCensus._street_addr_from_response m = Except.ok (PyVal.str "")) ∧
    (leadingDigits s ≠ "" →
      USCensus._street_addr_from_response m =
        Except.ok (PyVal.str (joinWith " "
          ((leadingDigits s :: comps).filter (fun t => t ≠ "")))) ∧
      (∃ tail, joinWith " " ((leadingDigits s :: comps).filter (fun t => t ≠ "")) =
        leadingDigits s ++ tail) ∧
      joinWith " " ((leadingDigits s :: comps).filter (fun t => t ≠ "")) ≠ "") ∧
    (∀ fields : List PyVal, leadingDigits s ≠ "" →
      (PyVal.str (leadingDigits s) :: fields).any pyTruthy = true) := by
  refine ⟨?_, ?_, ?_⟩
  · intro h
    unfold USCensus._street_addr_from_response
    rw [hma]
    simp [Bind.bind, Except.bind, asStr, h]
  · intro h
    have hd : decide (leadingDigits s ≠ "") = true := by simpa using h
    have hflt : (leadingDigits s :: comps).filter (fun t => t ≠ "") =
        leadingDigits s :: comps.filter (fun t => t ≠ "") := by
      rw [List.filter_cons, if_pos hd]
    obtain ⟨tail, htail⟩ := joinWith_cons_exists " " (leadingDigits s)
      (comps.filter (fun t => t ≠ ""))
    refine ⟨?_, ⟨tail, by rw [hflt]; exact htail⟩, ?_⟩
    · unfold USCensus._street_addr_from_response
      rw [hma]
      simp only [Bind.bind, Except.bind, asStr]
      rw [if_neg h, hcomp]
      simp only [Except.bind]
      rw [hfields]
      simp only [Except.bind]
      have hany : (PyVal.str (leadingDigits s) :: comps.map PyVal.str).any pyTruthy = true := by
        simp [pyTruthy, h]
      rw [if_pos hany]
      have hfilter : (PyVal.str (leadingDigits s) :: comps.map PyVal.str).filter pyTruthy =
          ((leadingDigits s :: comps).filter (fun t => t ≠ "")).map PyVal.str := by
        simp only [List.filter_cons, List.filter_map, pyTruthy, hd, if_true]
        rfl
      rw [hfilter, mapM_asStr_map]
    · rw [hflt, htail]
      intro hemp
      apply h
      have hdata := congrArg String.data hemp
      rw [String.data_append] at hdata
      have h2 : (leadingDigits s).data = [] := (List.append_eq_nil.mp (by simpa using hdata)).1
      exact String.ext h2
  · intro fields h
    simp [List.any_cons, pyTruthy, h]

/-- C9 (witness): the specification applied to the concrete Census
match row, whose matched address starts with "123". -/
theorem uscensus_street_addr_spec_witness :
    USCensus._street_addr_from_response exCensusRow = Except.ok (PyVal.str "123 Main St") ∧
    (PyVal.str "123" :: ([] : List PyVal)).any pyTruthy = true := by
  have h := uscensus_street_addr_spec "123 Main St, Philadelphia, PA, 19107"
    [("city", PyVal.str "Philadelphia"), ("state", PyVal.str "PA"),
     ("zip", PyVal.str "19107"), ("streetName", PyVal.str "Main"),
     ("suffixType", PyVal.str "St")]
    exCensusRow ["", "", "", "Main", "St", "", ""] rfl rfl rfl
  exact ⟨(h.2.1 (by decide)).1, h.2.2 [] (by decide)⟩

/-- C10: every candidate returned by `USCensus._geocode` has
`match_country` equal to "USA", `match_subregion` equal to the empty
string, and `match_city`/`match_region`/`match_postal` always set — to
the row's city/state/zip address component, which defaults to the empty
string when the component is absent from the response row. -/
theorem uscensus_match_fields :
    ∀ (pq : Query) (resp : PyVal) out,
      USCensus._geocode pq resp = Except.ok out →
      ∀ c ∈ out.2,
        c.match_country = some (PyVal.str "USA") ∧
        c.match_subregion = some (PyVal.str "") ∧
        (c.match_city.isSome = true ∧ c.match_region.isSome = true ∧
          c.match_postal.isSome = true) ∧
        ∃ compKvs : List (String × PyVal),
          c.match_city = some ((alistLookup compKvs "city").getD (PyVal.str "")) ∧
          c.match_region = some ((alistLookup compKvs "state").getD (PyVal.str "")) ∧
          c.match_postal = some ((alistLookup compKvs "zip").getD (PyVal.str "")) ∧
          (alistLookup compKvs "city" = Option.none → c.match_city = some (PyVal.str "")) ∧
          (alistLookup compKvs "state" = Option.none → c.match_region = some (PyVal.str "")) ∧
          (alistLookup compKvs "zip" = Option.none → c.match_postal = some (PyVal.str "")) := by
  intro pq resp out h c hc
  obtain ⟨hresp, -⟩ := uscensus_geocode_inv h
  obtain ⟨_, _, _, -, -, -, hmap⟩ := uscensus_candidatesOfResponse_inv hresp
  obtain ⟨r, -, hr⟩ := exceptMapM_ok_mem hmap hc
  obtain ⟨ma, co, vx, vy, compKvs, city, state, zip, sa, -, -, -, -, -,
    hcity, hstate, hzip, -, hc'⟩ := uscensus_candidateOfRow_inv hr
  subst hc'
  subst hcity
  subst hstate
  subst hzip
  refine ⟨rfl, rfl, ⟨rfl, rfl, rfl⟩, compKvs, rfl, rfl, rfl, ?_, ?_, ?_⟩
  · intro habs
    simp [habs]
  · intro habs
    simp [habs]
  · intro habs
    simp [habs]

/-- C10 (witness): the invariant applied to a concrete response with
all components present and one with city/state/zip absent. -/
theorem uscensus_match_fields_witness :
    (exCensusCand.match_country = some (PyVal.str "USA") ∧
      exCensusCand.match_subregion = some (PyVal.str "") ∧
      exCensusCand.match_city.isSome = true ∧
      exCensusCand.match_region.isSome = true ∧
      exCensusCand.match_postal.isSome = true) ∧
    (exCensusBareCand.match_country = some (PyVal.str "USA") ∧
      exCensusBareCand.match_city = some (PyVal.str "") ∧
      exCensusBareCand.match_region = some (PyVal.str "") ∧
      exCensusBareCand.match_postal = some (PyVal.str "")) := by
  constructor
  · have h := uscensus_match_fields { query := "q" } exCensusResp
      (USCensus.buildRequest { query := "q" }, [exCensusCand]) rfl exCensusCand
      (List.mem_singleton.mpr rfl)
    exact ⟨h.1, h.2.1, h.2.2.1.1, h.2.2.1.2.1, h.2.2.1.2.2⟩
  · have h := uscensus_match_fields { query := "q" } exCensusBareResp
      (USCensus.buildRequest { query := "q" }, [exCensusBareCand]) rfl exCensusBareCand
      (List.mem_singleton.mpr rfl)
    exact ⟨h.1, rfl, rfl, rfl⟩
